import Mathlib

/-!
Verification of the taahAI conversational client (src/src/App.js).

The file shallowly embeds the logic-bearing parts of the client:
the response extractor `extractText`, the conversation engine
`sendMessage` / `quickSend`, the render pipeline `renderMarkdown`,
the RFC 4122 v4 session-identity fallback, and the keyboard handler
`onKeyDown`.  External collaborators (the fetch transport, the
`marked` and `DOMPurify` capabilities, the JSON parser of the
platform) are modelled as explicit parameters, so every branch of the
source is a branch of a total Lean function.
-/

namespace TaahAI

/-- A parsed JSON value, the payload shape consumed by the response
extractor.  Keyed structures keep their fields in insertion order, as
a JS object obtained from `JSON.parse` does.  Numbers are modelled as
integers; no claim depends on float behaviour. -/
inductive JSONValue where
  | str (s : String)
  | num (n : Int)
  | bool (b : Bool)
  | null
  | arr (elems : List JSONValue)
  | obj (fields : List (String × JSONValue))
deriving Repr

/-- JS property lookup on an object literal modelled as a field list:
a later binding of the same key shadows an earlier one, as in a JS
object built left to right. -/
def lookupField : List (String × JSONValue) → String → Option JSONValue
  | [], _ => none
  | (k2, v) :: rest, k =>
    match lookupField rest k with
    | some w => some w
    | none => if k2 = k then some v else none

/-- The fixed key preference order of `extractText` (App.js lines 218-225). -/
def extractKeys : List String :=
  ["output", "reply", "message", "content", "text", "result"]

/-- The `for (const k of keys)` scan of `extractText`: the first key in
order whose value is itself a string (`typeof val[k] === "string"`). -/
def firstStringField (fields : List (String × JSONValue)) : List String → Option String
  | [] => none
  | k :: ks =>
    match lookupField fields k with
    | some (.str s) => some s
    | _ => firstStringField fields ks

/-- `extractText` (App.js lines 214-231).  A string is returned
directly; a non-empty array recurses into its first element; any other
object scans the key preference order; everything else (including an
empty array, which in JS falls into the object branch and finds no
string field) yields `undefined`, modelled as `none`. -/
def extractText : JSONValue → Option String
  | .str s => some s
  | .arr (x :: _) => extractText x
  | .arr [] => none
  | .obj fields => firstStringField fields extractKeys
  | _ => none

/-- Written from the spec's four numbered extraction rules (§4.3), to
be compared against the source-derived `extractText`: (1) a string is
returned directly; (2) a non-empty ordered sequence recurses into its
first element only; (3) a keyed structure scans the preference order
and returns the first key whose value is itself a string; (4)
otherwise `undefined`. -/
def extractSpec : JSONValue → Option String
  | .str s => some s
  | .arr (x :: _) => extractSpec x
  | .obj fields =>
    extractKeys.findSome? (fun k =>
      match lookupField fields k with
      | some (.str s) => some s
      | _ => none)
  | _ => none

/-- JSON.stringify of a string: wrap in double quotes, escaping the
quote, the backslash and the common control characters. -/
def stringifyStringChar (c : Char) : String :=
  if c = Char.ofNat 34 then "\\\""
  else if c = Char.ofNat 92 then "\\\\"
  else if c = Char.ofNat 10 then "\\n"
  else if c = Char.ofNat 13 then "\\r"
  else if c = Char.ofNat 9 then "\\t"
  else if c.toNat < 32 then
    "\\u00" ++ String.mk [Nat.digitChar (c.toNat / 16), Nat.digitChar (c.toNat % 16)]
  else String.singleton c

def stringifyString (s : String) : String :=
  "\"" ++ String.join (s.toList.map stringifyStringChar) ++ "\""

mutual

/-- `JSON.stringify`, the stable string rendering used by `sendMessage`
when the extractor locates no string field (App.js line 237). -/
def jsonStringify : JSONValue → String
  | .str s => stringifyString s
  | .num n => toString n
  | .bool true => "true"
  | .bool false => "false"
  | .null => "null"
  | .arr elems => "[" ++ String.intercalate "," (stringifyElems elems) ++ "]"
  | .obj fields => "\x7b" ++ String.intercalate "," (stringifyFields fields) ++ "\x7d"

def stringifyElems : List JSONValue → List String
  | [] => []
  | x :: xs => jsonStringify x :: stringifyElems xs

def stringifyFields : List (String × JSONValue) → List String
  | [] => []
  | (k, v) :: fs => (stringifyString k ++ ":" ++ jsonStringify v) :: stringifyFields fs

end

/-- The whitespace set of JS `String.prototype.trim` (WhiteSpace and
LineTerminator code points; the rare Unicode Zs members are listed by
code point). -/
def isJsWhitespace (c : Char) : Bool :=
  c.toNat = 9 || c.toNat = 10 || c.toNat = 11 || c.toNat = 12 || c.toNat = 13 ||
  c.toNat = 32 || c.toNat = 160 || c.toNat = 0x1680 ||
  (0x2000 ≤ c.toNat && c.toNat ≤ 0x200A) ||
  c.toNat = 0x2028 || c.toNat = 0x2029 || c.toNat = 0x202F ||
  c.toNat = 0x205F || c.toNat = 0x3000 || c.toNat = 0xFEFF

/-- JS `text.trim()`: strip leading and trailing whitespace. -/
def jsTrim (s : String) : String :=
  String.mk (((s.toList.dropWhile isJsWhitespace).reverse.dropWhile isJsWhitespace).reverse)

/-- JS `a.includes(b)`: substring containment. -/
def jsIncludes (s sub : String) : Bool :=
  s.toList.tails.any (fun t => sub.toList.isPrefixOf t)

/-- The role tag of a log entry. -/
inductive Role where
  | user
  | assistant
deriving Repr, DecidableEq

/-- One conversation log entry: `{ role, content }`. -/
structure Message where
  role : Role
  content : String
deriving Repr, DecidableEq

/-- The engine state owned by the component: the message log, the
input box content, the `loading` flag and the `errorText` indicator. -/
structure EngineState where
  messages : List Message
  input : String
  loading : Bool
  errorText : String
deriving Repr, DecidableEq

/-- One settled HTTP response, as the `fetch` branch of `sendMessage`
observes it.  `bodyParsed` is what `JSON.parse` of the body text
yields (`none` when the body is not valid JSON), and `parseErrMsg` is
the message of the syntax error `response.json()` would throw in that
case; both model the platform JSON parser, which is external to the
repository. -/
structure HttpResponse where
  status : Nat
  statusText : String
  contentType : String
  bodyRaw : String
  bodyParsed : Option JSONValue
  parseErrMsg : String

/-- `response.ok`: status in the 200-299 range. -/
def respOk (r : HttpResponse) : Bool :=
  200 ≤ r.status && r.status ≤ 299

/-- How the single `fetch` of a dispatched submit settles: either a
network-level failure carrying the error message, or a response. -/
inductive FetchOutcome where
  | networkError (message : String)
  | success (r : HttpResponse)

/-- The body of the `try` block of `sendMessage` after the `fetch`
settles (App.js lines 205-249): `.error` is a thrown error's message
(caught by the `catch` branch), `.ok` is the `markdownReply` string. -/
def replyOrError : FetchOutcome → Except String String
  | .networkError m => .error m
  | .success r =>
    if !respOk r then
      .error ("Request failed (" ++ toString r.status ++ " " ++ r.statusText ++ ")")
    else if jsIncludes r.contentType "application/json" then
      match r.bodyParsed with
      | none => .error r.parseErrMsg
      | some data =>
        match extractText data with
        | some reply => .ok reply
        | none => .ok (jsonStringify data)
    else
      match r.bodyParsed with
      | some maybe =>
        match extractText maybe with
        | some picked => .ok picked
        | none => .ok r.bodyRaw
      | none => .ok r.bodyRaw

/-- The trimmed text a `sendMessage` call works on: the override
argument when one is passed, the current input otherwise. -/
def trimmedText (overrideText : Option String) (s : EngineState) : String :=
  jsTrim (match overrideText with | some t => t | none => s.input)

/-- The early-return guard of `sendMessage` (App.js line 178). -/
def sendBlocked (overrideText : Option String) (s : EngineState) : Bool :=
  (trimmedText overrideText s).length = 0 || s.loading

/-- The synchronous prefix of `sendMessage` up to the `fetch` call
(App.js lines 182-188): clear the error, raise `loading`, append the
user message optimistically, clear the input box. -/
def dispatchState (overrideText : Option String) (s : EngineState) : EngineState :=
  { s with errorText := ""
           loading := true
           messages := s.messages ++ [⟨.user, trimmedText overrideText s⟩]
           input := "" }

/-- The resumption of `sendMessage` once the call settles (App.js
lines 251-266): append the assistant reply on success; on any thrown
error append the apology message and mirror it into `errorText`; the
`finally` clause lowers `loading` on both branches. -/
def settleState (outcome : FetchOutcome) (s1 : EngineState) : EngineState :=
  match replyOrError outcome with
  | .ok reply =>
    { s1 with messages := s1.messages ++ [⟨.assistant, reply⟩], loading := false }
  | .error emsg =>
    let friendly := "Sorry, I could not reach the API. " ++ emsg
    { s1 with messages := s1.messages ++ [⟨.assistant, friendly⟩]
              errorText := friendly
              loading := false }

/-- `sendMessage` end to end (App.js lines 174-267), as a function of
the override argument, the way the single remote call settles, and the
starting state. -/
def sendMessage (overrideText : Option String) (outcome : FetchOutcome) (s : EngineState) : EngineState :=
  if sendBlocked overrideText s then s
  else settleState outcome (dispatchState overrideText s)

/-- `quickSend` (App.js lines 140-144): ignore the click while
loading; otherwise place the prompt text in the input box and submit
it immediately via the override argument. -/
def quickSend (text : String) (outcome : FetchOutcome) (s : EngineState) : EngineState :=
  if s.loading then s
  else sendMessage (some text) outcome { s with input := text }

/-- `escapeHtml` (App.js lines 149-155): the five `replaceAll` steps,
in source order. -/
def escapeHtml (raw : String) : String :=
  ((((raw.replace "&" "&amp;").replace "<" "&lt;").replace ">" "&gt;").replace
      "\"" "&quot;").replace (String.singleton (Char.ofNat 39)) "&#039;"

/-- The escaped preformatted fallback markup of `renderMarkdown`:
the template &lt;pre&gt;\n ... \n&lt;/pre&gt; around the escaped text. -/
def fallbackRender (mdText : String) : String :=
  "<pre>\n" ++ escapeHtml mdText ++ "\n</pre>"

/-- The two optional runtime capabilities of the render pipeline.
`markedReady` / `purifyReady` are the readiness flags
(`markedReadyRef.current`, `purifyReadyRef.current`); `markedPresent`
/ `purifyPresent` model the `window.marked` / `window.DOMPurify`
truthiness checks.  The external `marked.parse` and
`DOMPurify.sanitize` calls are arbitrary functions that may either
return a string or throw (`Except.error` carries the thrown
message). -/
structure RenderCaps where
  markedReady : Bool
  markedPresent : Bool
  markedParse : String → Except String String
  purifyReady : Bool
  purifyPresent : Bool
  purifySanitize : String → Except String String

/-- `renderMarkdown` (App.js lines 147-171).  Inside the `try`:
`parsed` is `marked.parse(mdText)` when the formatter is ready and
present, the escaped preformatted fallback otherwise; `sanitized` is
`DOMPurify.sanitize(parsed)` when the sanitizer is ready and present,
`parsed` otherwise.  Any throw lands in the `catch`, which returns
the escaped preformatted fallback. -/
def renderMarkdown (caps : RenderCaps) (mdText : String) : String :=
  let parsedE : Except String String :=
    if caps.markedReady && caps.markedPresent then caps.markedParse mdText
    else .ok (fallbackRender mdText)
  match parsedE with
  | .error _ => fallbackRender mdText
  | .ok parsed =>
    match (if caps.purifyReady && caps.purifyPresent then caps.purifySanitize parsed
           else .ok parsed) with
    | .error _ => fallbackRender mdText
    | .ok sanitized => sanitized

/-- `n.toString(16)`: lowercase hexadecimal digits of `n`. -/
def natToHexChars (n : Nat) : List Char :=
  if n < 16 then [Nat.digitChar n]
  else natToHexChars (n / 16) ++ [Nat.digitChar (n % 16)]
decreasing_by exact Nat.div_lt_self (by omega) (by omega)

/-- `n.toString(16).padStart(2, "0")`: the `toHex` helper of the
session-identity fallback (App.js line 34). -/
def toHexByte (n : Nat) : List Char :=
  List.replicate (2 - (natToHexChars n).length) '0' ++ natToHexChars n

/-- The byte array after the two in-place updates of the fallback
(App.js lines 32-33): `bytes[6] = (bytes[6] & 0x0f) | 0x40` forces the
version nibble, `bytes[8] = (bytes[8] & 0x3f) | 0x80` the variant
bits.  `bytes` is the 16-entry `Uint8Array` read at indices 0-15. -/
def withVariantBits (bytes : Nat → Nat) : Nat → Nat := fun i =>
  if i = 6 then (bytes 6 &&& 0x0f) ||| 0x40
  else if i = 8 then (bytes 8 &&& 0x3f) ||| 0x80
  else bytes i

/-- `Array.from(bytes, toHex).join("")` (App.js line 35): the 32
lowercase hex digits of the version/variant-patched bytes. -/
def uuidHex (bytes : Nat → Nat) : List Char :=
  ((List.range 16).map (fun i => toHexByte (withVariantBits bytes i))).flatten

/-- The RFC 4122 v4 fallback construction (App.js lines 24-36): the
32-digit hex string sliced into the 8-4-4-4-12 dashed groups
(`hex.slice(a, b)` is `drop a` then `take (b - a)`). -/
def uuidFromBytes (bytes : Nat → Nat) : String :=
  String.mk ((uuidHex bytes).take 8 ++
    '-' :: (((uuidHex bytes).drop 8).take 4 ++
      '-' :: (((uuidHex bytes).drop 12).take 4 ++
        '-' :: (((uuidHex bytes).drop 16).take 4 ++
          '-' :: (uuidHex bytes).drop 20))))

/-- The three random-source paths of the `sessionId` initializer
(App.js lines 18-37). -/
inductive RandomPath where
  | native
  | getRandomValues
  | mathRandom

/-- Modelled from the spec: `window.crypto.randomUUID` is a platform
builtin outside this repository; its contract — an RFC 4122 version-4
UUID built from 16 random bytes with the version and variant bits
forced, rendered as lowercase dashed hex — is the same construction
the in-repo fallback performs. -/
def nativeRandomUUID (bytes : Nat → Nat) : String :=
  uuidFromBytes bytes

/-- The `sessionId` value as a function of which random source was
available and of the 16 random bytes it produced (`getRandomValues`
fills the `Uint8Array` directly; the `Math.random` loop stores
`Math.floor(Math.random() * 256)` per index — in both cases an
arbitrary byte value per index). -/
def sessionIdGen : RandomPath → (Nat → Nat) → String
  | .native, bytes => nativeRandomUUID bytes
  | .getRandomValues, bytes => uuidFromBytes bytes
  | .mathRandom, bytes => uuidFromBytes bytes

/-- A lowercase hexadecimal digit. -/
def isHexLowerChar (c : Char) : Bool :=
  (48 ≤ c.toNat && c.toNat ≤ 57) || (97 ≤ c.toNat && c.toNat ≤ 102)

/-- The canonical UUID v4 / variant-10 shape
xxxxxxxx-xxxx-4xxx-yxxx-xxxxxxxxxxxx with y in 8, 9, a, b: five
dashed groups of lowercase hex digits of lengths 8, 4, 4, 4, 12, the
third starting with the digit 4 and the fourth with a variant-10
digit. -/
def UuidV4Pattern (s : String) : Prop :=
  ∃ a b c d e : List Char,
    s.toList = a ++ '-' :: (b ++ '-' :: (c ++ '-' :: (d ++ '-' :: e))) ∧
    a.length = 8 ∧ b.length = 4 ∧ c.length = 4 ∧ d.length = 4 ∧ e.length = 12 ∧
    (∀ x ∈ a ++ b ++ c ++ d ++ e, isHexLowerChar x = true) ∧
    c.head? = some '4' ∧
    ∃ y, d.head? = some y ∧ (y = '8' ∨ y = '9' ∨ y = 'a' ∨ y = 'b')

/-- The fields of a keyboard event the handler and the claims read. -/
structure KeyEvent where
  key : String
  shiftKey : Bool
  ctrlKey : Bool
  altKey : Bool
  metaKey : Bool
deriving Repr, DecidableEq

/-- What a keydown handler invocation did: whether it called
`e.preventDefault()` and whether it invoked `sendMessage`. -/
structure KeyOutcome where
  defaultPrevented : Bool
  submitInvoked : Bool
deriving Repr, DecidableEq

/-- `onKeyDown` (App.js lines 270-275): Enter without Shift prevents
the default and submits; every other event is left entirely to the
input's default handling. -/
def onKeyDown (e : KeyEvent) : KeyOutcome :=
  if e.key = "Enter" && !e.shiftKey then ⟨true, true⟩ else ⟨false, false⟩

/-- Whether any modifier key accompanies the event. -/
def hasModifier (e : KeyEvent) : Bool :=
  e.shiftKey || e.ctrlKey || e.altKey || e.metaKey

/-- Modelled from the spec: the multiline input's default keydown
behaviour is supplied by the display toolkit, outside this
repository; an Enter whose default was not prevented inserts a
literal line break. -/
def defaultInsertsLineBreak (e : KeyEvent) (out : KeyOutcome) : Bool :=
  e.key = "Enter" && !out.defaultPrevented

theorem firstStringField_eq_findSome (fields : List (String × JSONValue)) :
    ∀ ks : List String,
      firstStringField fields ks =
        ks.findSome? (fun k =>
          match lookupField fields k with
          | some (.str s) => some s
          | _ => none) := by
  intro ks
  induction ks with
  | nil => rfl
  | cons k ks ih =>
    simp only [firstStringField, List.findSome?]
    cases h : lookupField fields k with
    | none => simp [h, ih]
    | some v =>
      cases v <;> simp [h, ih]

theorem extractText_eq_spec : ∀ v : JSONValue, extractText v = extractSpec v := by
  intro v
  induction v using extractText.induct with
  | case1 s => rfl
  | case2 x rest ih => simpa [extractText, extractSpec] using ih
  | case3 => rfl
  | case4 fields => simpa [extractText, extractSpec] using firstStringField_eq_findSome fields extractKeys
  | case5 v h1 h2 h3 =>
    cases v <;> simp_all [extractText, extractSpec]

theorem jsTrim_of_all_whitespace (t : String)
    (h : ∀ c ∈ t.toList, isJsWhitespace c = true) : jsTrim t = "" := by
  have h1 : List.dropWhile isJsWhitespace t.toList = [] :=
    List.dropWhile_eq_nil_iff.mpr h
  unfold jsTrim
  rw [h1]
  rfl

theorem sendBlocked_false (overrideText : Option String) (s : EngineState)
    (h1 : trimmedText overrideText s ≠ "") (h2 : s.loading = false) :
    sendBlocked overrideText s = false := by
  have hlen : (trimmedText overrideText s).length ≠ 0 := by
    intro h0
    apply h1
    have hd : (trimmedText overrideText s).data = [] := List.length_eq_zero.mp h0
    calc trimmedText overrideText s = ⟨(trimmedText overrideText s).data⟩ := rfl
      _ = ⟨[]⟩ := by rw [hd]
  simp [sendBlocked, h2, hlen]

/-- The log shape of an unblocked submit: one user entry appended at
dispatch, one assistant entry appended at settlement, nothing else. -/
theorem sendMessage_log (overrideText : Option String) (outcome : FetchOutcome)
    (s : EngineState) (h1 : trimmedText overrideText s ≠ "") (h2 : s.loading = false) :
    ∃ c, (sendMessage overrideText outcome s).messages =
      s.messages ++ [⟨Role.user, trimmedText overrideText s⟩, ⟨Role.assistant, c⟩] := by
  rw [sendMessage, sendBlocked_false overrideText s h1 h2]
  cases hro : replyOrError outcome with
  | ok reply =>
    exact ⟨reply, by simp [settleState, dispatchState, hro]⟩
  | error emsg =>
    exact ⟨"Sorry, I could not reach the API. " ++ emsg,
      by simp [settleState, dispatchState, hro]⟩

/-- C1: the Response Extractor follows the documented precedence — it
coincides, on every payload, with the rule-by-rule reading of the spec
(string returned directly; non-empty array recurses into its first
element only; object scanned in the fixed key order for a value that
is itself a string; anything else undefined) — and the five
documented examples evaluate as stated. -/
theorem c1_extract_precedence :
    (∀ v : JSONValue, extractText v = extractSpec v) ∧
    extractText (.str "hello") = some "hello" ∧
    extractText (.arr [.str "a", .str "b"]) = some "a" ∧
    extractText (.obj [("reply", .str "hi")]) = some "hi" ∧
    extractText (.obj [("output", .obj [("x", .num 1)])]) = none ∧
    extractText (.obj [("foo", .str "bar")]) = none :=
  ⟨extractText_eq_spec, rfl, rfl, rfl, rfl, rfl⟩

/-- C2: an unblocked submit (non-blank trimmed text, not pending)
appends exactly one user Message at dispatch — the pending-state log
is the old log plus that single entry, with no placeholder — and
exactly one assistant Message once the call settles, on the success
branch and the failure branch alike, so the settled log is the old
log plus exactly two entries. -/
theorem c2_submit_two_messages (overrideText : Option String) (outcome : FetchOutcome)
    (s : EngineState) (h1 : trimmedText overrideText s ≠ "") (h2 : s.loading = false) :
    sendMessage overrideText outcome s = settleState outcome (dispatchState overrideText s) ∧
    (dispatchState overrideText s).messages =
      s.messages ++ [⟨Role.user, trimmedText overrideText s⟩] ∧
    (dispatchState overrideText s).loading = true ∧
    (∃ c, (sendMessage overrideText outcome s).messages =
      s.messages ++ [⟨Role.user, trimmedText overrideText s⟩, ⟨Role.assistant, c⟩]) ∧
    (sendMessage overrideText outcome s).messages.length = s.messages.length + 2 := by
  refine ⟨?_, by simp [dispatchState], by simp [dispatchState],
    sendMessage_log overrideText outcome s h1 h2, ?_⟩
  · rw [sendMessage, sendBlocked_false overrideText s h1 h2]
    simp
  · obtain ⟨c, hc⟩ := sendMessage_log overrideText outcome s h1 h2
    simp [hc]

/-- C2 witness: a concrete unblocked submit over an empty log settles
with exactly the user entry and one assistant entry. -/
theorem c2_submit_two_messages_witness :
    ∃ c, (sendMessage (some "hi") (.networkError "boom")
        ⟨[], "", false, ""⟩).messages =
      [⟨Role.user, "hi"⟩, ⟨Role.assistant, c⟩] := by
  obtain ⟨-, -, -, ⟨c, hc⟩, -⟩ :=
    c2_submit_two_messages (some "hi") (.networkError "boom")
      ⟨[], "", false, ""⟩ (by decide) rfl
  exact ⟨c, by simpa using hc⟩

/-- The error detail a dispatched submit fails with, when it fails:
the network error message, the status summary of a non-success
response, or the JSON syntax error of an unparseable declared-JSON
body. -/
def failureDetail : FetchOutcome → Option String
  | .networkError m => some m
  | .success r =>
    if !respOk r then
      some ("Request failed (" ++ toString r.status ++ " " ++ r.statusText ++ ")")
    else if jsIncludes r.contentType "application/json" then
      match r.bodyParsed with
      | none => some r.parseErrMsg
      | some _ => none
    else none

theorem replyOrError_of_failure (outcome : FetchOutcome) (e : String)
    (hf : failureDetail outcome = some e) : replyOrError outcome = .error e := by
  cases outcome with
  | networkError m => simpa [failureDetail, replyOrError] using hf
  | success r =>
    by_cases hok : respOk r
    · by_cases hct : jsIncludes r.contentType "application/json"
      · cases hbp : r.bodyParsed with
        | none => simp_all [failureDetail, replyOrError]
        | some data => simp_all [failureDetail, replyOrError]
      · simp_all [failureDetail, replyOrError]
    · simp_all [failureDetail, replyOrError]

/-- C3: on any failure of a dispatched submit — network error,
non-success status, or parse failure of a declared-JSON body — the
settled log is the dispatched log plus one assistant Message whose
content is the apology string incorporating the failure detail,
`errorText` is exactly that same string, and `loading` is back to
false. -/
theorem c3_failure_apology (overrideText : Option String) (outcome : FetchOutcome)
    (s : EngineState) (e : String)
    (h1 : trimmedText overrideText s ≠ "") (h2 : s.loading = false)
    (hf : failureDetail outcome = some e) :
    (sendMessage overrideText outcome s).messages =
      s.messages ++ [⟨Role.user, trimmedText overrideText s⟩,
        ⟨Role.assistant, "Sorry, I could not reach the API. " ++ e⟩] ∧
    (sendMessage overrideText outcome s).errorText =
      "Sorry, I could not reach the API. " ++ e ∧
    (sendMessage overrideText outcome s).loading = false := by
  rw [sendMessage, sendBlocked_false overrideText s h1 h2]
  have hro := replyOrError_of_failure outcome e hf
  simp [settleState, dispatchState, hro]

/-- C3 witness: a connection error described as "network down" leaves
the log ending with the apology containing "network down" and
`errorText` equal to that same message. -/
theorem c3_failure_apology_witness :
    (sendMessage none (.networkError "network down")
        ⟨[⟨Role.user, "q"⟩], "hello", false, ""⟩).messages =
      [⟨Role.user, "q"⟩, ⟨Role.user, "hello"⟩,
        ⟨Role.assistant, "Sorry, I could not reach the API. network down"⟩] ∧
    (sendMessage none (.networkError "network down")
        ⟨[⟨Role.user, "q"⟩], "hello", false, ""⟩).errorText =
      "Sorry, I could not reach the API. network down" ∧
    (sendMessage none (.networkError "network down")
        ⟨[⟨Role.user, "q"⟩], "hello", false, ""⟩).loading = false := by
  have h := c3_failure_apology none (.networkError "network down")
    ⟨[⟨Role.user, "q"⟩], "hello", false, ""⟩ "network down"
    (by decide) rfl rfl
  simpa using h

/-- C4: a submit whose text consists only of whitespace (or is empty)
is a complete no-op: the state — log, input, `loading`, `errorText` —
is returned unchanged, for every possible settlement of the call that
was therefore never dispatched. -/
theorem c4_blank_submit_noop (overrideText : Option String) (outcome : FetchOutcome)
    (s : EngineState)
    (h : ∀ c ∈ (match overrideText with
                | some t => t
                | none => s.input).toList, isJsWhitespace c = true) :
    sendMessage overrideText outcome s = s := by
  have ht : trimmedText overrideText s = "" := jsTrim_of_all_whitespace _ h
  simp [sendMessage, sendBlocked, ht]

/-- C4 witness: a three-space submit leaves a concrete idle state
untouched. -/
theorem c4_blank_submit_noop_witness :
    sendMessage (some "   ") (.networkError "x")
        ⟨[⟨Role.assistant, "hey"⟩], "draft", false, ""⟩ =
      ⟨[⟨Role.assistant, "hey"⟩], "draft", false, ""⟩ :=
  c4_blank_submit_noop (some "   ") (.networkError "x")
    ⟨[⟨Role.assistant, "hey"⟩], "draft", false, ""⟩ (by decide)

/-- C5: a submit issued while `loading` is true is a no-op — the state
is returned unchanged for every possible settlement, so the guarded
engine never has two calls in flight and never queues a second one. -/
theorem c5_pending_submit_noop (overrideText : Option String) (outcome : FetchOutcome)
    (s : EngineState) (h : s.loading = true) :
    sendMessage overrideText outcome s = s := by
  simp [sendMessage, sendBlocked, h]

/-- C5 witness: a concrete pending state absorbs a second submit. -/
theorem c5_pending_submit_noop_witness :
    sendMessage (some "again") (.networkError "x")
        ⟨[⟨Role.user, "first"⟩], "", true, ""⟩ =
      ⟨[⟨Role.user, "first"⟩], "", true, ""⟩ :=
  c5_pending_submit_noop (some "again") (.networkError "x")
    ⟨[⟨Role.user, "first"⟩], "", true, ""⟩ rfl

/-- C7 counterexample: with the formatter unavailable but the
sanitizer available, the pipeline returns whatever the sanitizer
makes of the escaped preformatted block — here a sanitizer producing
"X" — not the escaped preformatted block itself, so the claim's
"unavailable formatting returns the escaped input in a preformatted
block" fails as stated. -/
theorem c7_sanitizer_rewrites_fallback :
    renderMarkdown ⟨false, false, fun t => .ok t, true, true, fun _ => .ok "X"⟩ "a" = "X" ∧
    ("X" : String) ≠ fallbackRender "a" := by
  exact ⟨rfl, by decide⟩

/-- C7 amended: the render pipeline is a total function (no exception
reaches the caller) and degrades as follows: with the formatter
unavailable and the sanitizer unavailable, or whenever the formatter
throws, or whenever the sanitizer throws, the result is exactly the
input escaped and wrapped in a preformatted block — deterministically,
the same string on every call; with only the formatter unavailable,
that escaped preformatted block is first passed through the
sanitizer, whose output is returned. -/
theorem c7_render_fallback (caps : RenderCaps) (mdText : String) :
    ((caps.markedReady && caps.markedPresent) = false →
      (caps.purifyReady && caps.purifyPresent) = false →
      renderMarkdown caps mdText = fallbackRender mdText) ∧
    (∀ e, (caps.markedReady && caps.markedPresent) = true →
      caps.markedParse mdText = .error e →
      renderMarkdown caps mdText = fallbackRender mdText) ∧
    (∀ out, (caps.markedReady && caps.markedPresent) = false →
      (caps.purifyReady && caps.purifyPresent) = true →
      caps.purifySanitize (fallbackRender mdText) = .ok out →
      renderMarkdown caps mdText = out) ∧
    (∀ e, (caps.markedReady && caps.markedPresent) = false →
      (caps.purifyReady && caps.purifyPresent) = true →
      caps.purifySanitize (fallbackRender mdText) = .error e →
      renderMarkdown caps mdText = fallbackRender mdText) ∧
    (∀ parsed e, (caps.markedReady && caps.markedPresent) = true →
      caps.markedParse mdText = .ok parsed →
      (caps.purifyReady && caps.purifyPresent) = true →
      caps.purifySanitize parsed = .error e →
      renderMarkdown caps mdText = fallbackRender mdText) := by
  refine ⟨?_, ?_, ?_, ?_, ?_⟩
  · intro hm hp
    simp [renderMarkdown, hm, hp]
  · intro e hm he
    simp [renderMarkdown, hm, he]
  · intro out hm hp hs
    simp [renderMarkdown, hm, hp, hs]
  · intro e hm hp hs
    simp [renderMarkdown, hm, hp, hs]
  · intro parsed e hm hpa hpu hs
    simp [renderMarkdown, hm, hpa, hpu, hs]

/-- C7 witness: with neither capability available the pipeline
returns the escaped preformatted block of a concrete input. -/
theorem c7_render_fallback_witness :
    renderMarkdown ⟨false, false, fun t => .ok t, false, false, fun t => .ok t⟩ "<b>" =
      fallbackRender "<b>" :=
  (c7_render_fallback ⟨false, false, fun t => .ok t, false, false, fun t => .ok t⟩ "<b>").1
    rfl rfl

/-- C8: on a successful response the reply payload is determined by
the declared content type: a declared-JSON body is parsed and the
extractor's string (or, failing that, the JSON.stringify rendering of
the whole payload) becomes the assistant message; a non-JSON body is
read as text, a JSON parse is attempted on it, and on extraction or
parse failure the raw text itself becomes the assistant message. -/
theorem c8_success_reply (overrideText : Option String) (s : EngineState)
    (r : HttpResponse)
    (h1 : trimmedText overrideText s ≠ "") (h2 : s.loading = false)
    (hok : respOk r = true) :
    (∀ d reply, jsIncludes r.contentType "application/json" = true →
      r.bodyParsed = some d → extractText d = some reply →
      (sendMessage overrideText (.success r) s).messages =
        s.messages ++ [⟨Role.user, trimmedText overrideText s⟩, ⟨Role.assistant, reply⟩]) ∧
    (∀ d, jsIncludes r.contentType "application/json" = true →
      r.bodyParsed = some d → extractText d = none →
      (sendMessage overrideText (.success r) s).messages =
        s.messages ++ [⟨Role.user, trimmedText overrideText s⟩,
          ⟨Role.assistant, jsonStringify d⟩]) ∧
    (∀ d reply, jsIncludes r.contentType "application/json" = false →
      r.bodyParsed = some d → extractText d = some reply →
      (sendMessage overrideText (.success r) s).messages =
        s.messages ++ [⟨Role.user, trimmedText overrideText s⟩, ⟨Role.assistant, reply⟩]) ∧
    (∀ d, jsIncludes r.contentType "application/json" = false →
      r.bodyParsed = some d → extractText d = none →
      (sendMessage overrideText (.success r) s).messages =
        s.messages ++ [⟨Role.user, trimmedText overrideText s⟩,
          ⟨Role.assistant, r.bodyRaw⟩]) ∧
    (jsIncludes r.contentType "application/json" = false → r.bodyParsed = none →
      (sendMessage overrideText (.success r) s).messages =
        s.messages ++ [⟨Role.user, trimmedText overrideText s⟩,
          ⟨Role.assistant, r.bodyRaw⟩]) := by
  rw [sendMessage, sendBlocked_false overrideText s h1 h2]
  simp only [if_false, Bool.false_eq_true, ite_false]
  refine ⟨?_, ?_, ?_, ?_, ?_⟩ <;> intros <;>
    simp_all [settleState, dispatchState, replyOrError, hok]

/-- C8 witness: the end-to-end success scenario of the spec — a
declared-JSON response whose payload carries the reply under
`output` produces exactly that assistant message. -/
theorem c8_success_reply_witness :
    (sendMessage (some "Tell me about your experience")
        (.success ⟨200, "OK", "application/json", "",
          some (.obj [("output", .str "I have 5 years...")]), "e"⟩)
        ⟨[], "", false, ""⟩).messages =
      [⟨Role.user, "Tell me about your experience"⟩,
        ⟨Role.assistant, "I have 5 years..."⟩] := by
  have h := (c8_success_reply (some "Tell me about your experience")
      ⟨[], "", false, ""⟩
      ⟨200, "OK", "application/json", "",
        some (.obj [("output", .str "I have 5 years...")]), "e"⟩
      (by decide) rfl rfl).1
      (.obj [("output", .str "I have 5 years...")]) "I have 5 years..."
      (by decide) rfl rfl
  simpa using h

/-- C9 counterexample: Ctrl+Enter carries a modifier key, yet the
handler — which only consults Shift — submits, so "an Enter keypress
with any modifier key held does not submit" fails as stated. -/
theorem c9_ctrl_enter_submits :
    hasModifier ⟨"Enter", false, true, false, false⟩ = true ∧
    (onKeyDown ⟨"Enter", false, true, false, false⟩).submitInvoked = true := by
  decide

/-- C9 amended: an Enter keypress without Shift triggers submit
(preventing the default insertion); an Enter with Shift held does not
submit and leaves the default behaviour, which inserts a literal line
break; modifiers other than Shift are not consulted. -/
theorem c9_enter_shift (e : KeyEvent) (hk : e.key = "Enter") :
    (e.shiftKey = false → onKeyDown e = ⟨true, true⟩) ∧
    (e.shiftKey = true → onKeyDown e = ⟨false, false⟩ ∧
      defaultInsertsLineBreak e (onKeyDown e) = true) := by
  constructor
  · intro hs
    simp [onKeyDown, hk, hs]
  · intro hs
    refine ⟨by simp [onKeyDown, hk, hs], ?_⟩
    simp [onKeyDown, defaultInsertsLineBreak, hk, hs]

/-- C9 witness: a plain Enter prevents the default and submits. -/
theorem c9_enter_shift_witness :
    onKeyDown ⟨"Enter", false, false, false, false⟩ = ⟨true, true⟩ :=
  (c9_enter_shift ⟨"Enter", false, false, false, false⟩ rfl).1 rfl

/-- C10: choosing a suggested prompt while a call is pending is a
complete no-op — the state, draft input included, is returned
unchanged and nothing is dispatched; when not pending it sets the
draft to the prompt text and submits it immediately, so for a
non-blank prompt the settled log gains the user entry with the
trimmed prompt text plus one assistant entry. -/
theorem c10_quick_send (text : String) (outcome : FetchOutcome) (s : EngineState) :
    (s.loading = true → quickSend text outcome s = s) ∧
    (s.loading = false →
      quickSend text outcome s = sendMessage (some text) outcome { s with input := text } ∧
      (jsTrim text ≠ "" →
        ∃ c, (quickSend text outcome s).messages =
          s.messages ++ [⟨Role.user, jsTrim text⟩, ⟨Role.assistant, c⟩])) := by
  refine ⟨fun h => by simp [quickSend, h], fun h => ⟨by simp [quickSend, h], fun ht => ?_⟩⟩
  obtain ⟨c, hc⟩ := sendMessage_log (some text) outcome { s with input := text } ht h
  exact ⟨c, by simpa [quickSend, h] using hc⟩

/-- C10 witness: a concrete pending state absorbs a suggested-prompt
click unchanged. -/
theorem c10_quick_send_witness :
    quickSend "Tell me about yourself." (.networkError "x")
        ⟨[⟨Role.user, "first"⟩], "draft", true, ""⟩ =
      ⟨[⟨Role.user, "first"⟩], "draft", true, ""⟩ :=
  (c10_quick_send "Tell me about yourself." (.networkError "x")
    ⟨[⟨Role.user, "first"⟩], "draft", true, ""⟩).1 rfl

theorem digitChar_hexLower : ∀ n < 16, isHexLowerChar (Nat.digitChar n) = true := by
  decide

set_option maxRecDepth 8000 in
theorem land15_lor64 : ∀ n < 256, (n &&& 15) ||| 64 = n % 16 + 64 := by
  decide

set_option maxRecDepth 8000 in
theorem land63_lor128 : ∀ n < 256, (n &&& 63) ||| 128 = n % 64 + 128 := by
  decide

theorem toHexByte_eq (n : Nat) (h : n < 256) :
    toHexByte n = [Nat.digitChar (n / 16), Nat.digitChar (n % 16)] := by
  by_cases h16 : n < 16
  · have hdiv : n / 16 = 0 := Nat.div_eq_of_lt h16
    have hmod : n % 16 = n := Nat.mod_eq_of_lt h16
    unfold toHexByte
    rw [natToHexChars.eq_def, if_pos h16, hdiv, hmod]
    rfl
  · have hdlt : n / 16 < 16 := by omega
    have hinner : natToHexChars (n / 16) = [Nat.digitChar (n / 16)] := by
      rw [natToHexChars.eq_def, if_pos hdlt]
    unfold toHexByte
    rw [natToHexChars.eq_def, if_neg h16, hinner]
    rfl

theorem uuidFromBytes_pattern (bytes : Nat → Nat) (hb : ∀ i < 16, bytes i < 256) :
    UuidV4Pattern (uuidFromBytes bytes) := by
  have h0 := hb 0 (by omega)
  have h1 := hb 1 (by omega)
  have h2 := hb 2 (by omega)
  have h3 := hb 3 (by omega)
  have h4 := hb 4 (by omega)
  have h5 := hb 5 (by omega)
  have h6 := hb 6 (by omega)
  have h7 := hb 7 (by omega)
  have h8 := hb 8 (by omega)
  have h9 := hb 9 (by omega)
  have h10 := hb 10 (by omega)
  have h11 := hb 11 (by omega)
  have h12 := hb 12 (by omega)
  have h13 := hb 13 (by omega)
  have h14 := hb 14 (by omega)
  have h15 := hb 15 (by omega)
  have hhex : uuidHex bytes =
      toHexByte (bytes 0) ++ (toHexByte (bytes 1) ++ (toHexByte (bytes 2) ++
      (toHexByte (bytes 3) ++ (toHexByte (bytes 4) ++ (toHexByte (bytes 5) ++
      (toHexByte ((bytes 6 &&& 15) ||| 64) ++ (toHexByte (bytes 7) ++
      (toHexByte ((bytes 8 &&& 63) ||| 128) ++ (toHexByte (bytes 9) ++
      (toHexByte (bytes 10) ++ (toHexByte (bytes 11) ++ (toHexByte (bytes 12) ++
      (toHexByte (bytes 13) ++ (toHexByte (bytes 14) ++
      (toHexByte (bytes 15) ++ []))))))))))))))) := rfl
  rw [land15_lor64 _ h6, land63_lor128 _ h8] at hhex
  rw [toHexByte_eq _ h0, toHexByte_eq _ h1, toHexByte_eq _ h2, toHexByte_eq _ h3,
    toHexByte_eq _ h4, toHexByte_eq _ h5, toHexByte_eq (bytes 6 % 16 + 64) (by omega),
    toHexByte_eq _ h7, toHexByte_eq (bytes 8 % 64 + 128) (by omega), toHexByte_eq _ h9,
    toHexByte_eq _ h10, toHexByte_eq _ h11, toHexByte_eq _ h12, toHexByte_eq _ h13,
    toHexByte_eq _ h14, toHexByte_eq _ h15] at hhex
  simp only [List.cons_append, List.nil_append, List.append_nil] at hhex
  unfold uuidFromBytes
  rw [hhex]
  refine ⟨[Nat.digitChar (bytes 0 / 16), Nat.digitChar (bytes 0 % 16),
           Nat.digitChar (bytes 1 / 16), Nat.digitChar (bytes 1 % 16),
           Nat.digitChar (bytes 2 / 16), Nat.digitChar (bytes 2 % 16),
           Nat.digitChar (bytes 3 / 16), Nat.digitChar (bytes 3 % 16)],
          [Nat.digitChar (bytes 4 / 16), Nat.digitChar (bytes 4 % 16),
           Nat.digitChar (bytes 5 / 16), Nat.digitChar (bytes 5 % 16)],
          [Nat.digitChar ((bytes 6 % 16 + 64) / 16), Nat.digitChar ((bytes 6 % 16 + 64) % 16),
           Nat.digitChar (bytes 7 / 16), Nat.digitChar (bytes 7 % 16)],
          [Nat.digitChar ((bytes 8 % 64 + 128) / 16), Nat.digitChar ((bytes 8 % 64 + 128) % 16),
           Nat.digitChar (bytes 9 / 16), Nat.digitChar (bytes 9 % 16)],
          [Nat.digitChar (bytes 10 / 16), Nat.digitChar (bytes 10 % 16),
           Nat.digitChar (bytes 11 / 16), Nat.digitChar (bytes 11 % 16),
           Nat.digitChar (bytes 12 / 16), Nat.digitChar (bytes 12 % 16),
           Nat.digitChar (bytes 13 / 16), Nat.digitChar (bytes 13 % 16),
           Nat.digitChar (bytes 14 / 16), Nat.digitChar (bytes 14 % 16),
           Nat.digitChar (bytes 15 / 16), Nat.digitChar (bytes 15 % 16)],
          rfl, rfl, rfl, rfl, rfl, rfl, ?_, ?_, ?_⟩
  · intro x hx
    simp only [List.cons_append, List.nil_append, List.mem_cons,
      List.not_mem_nil, or_false] at hx
    rcases hx with rfl | rfl | rfl | rfl | rfl | rfl | rfl | rfl | rfl | rfl | rfl | rfl |
      rfl | rfl | rfl | rfl | rfl | rfl | rfl | rfl | rfl | rfl | rfl | rfl | rfl | rfl |
      rfl | rfl | rfl | rfl | rfl | rfl <;>
      exact digitChar_hexLower _ (by omega)
  · rw [show (bytes 6 % 16 + 64) / 16 = 4 from by omega]
    rfl
  · refine ⟨Nat.digitChar ((bytes 8 % 64 + 128) / 16), rfl, ?_⟩
    have hq : (bytes 8 % 64 + 128) / 16 = 8 ∨ (bytes 8 % 64 + 128) / 16 = 9 ∨
        (bytes 8 % 64 + 128) / 16 = 10 ∨ (bytes 8 % 64 + 128) / 16 = 11 := by omega
    rcases hq with hq | hq | hq | hq <;> rw [hq]
    · exact Or.inl rfl
    · exact Or.inr (Or.inl rfl)
    · exact Or.inr (Or.inr (Or.inl rfl))
    · exact Or.inr (Or.inr (Or.inr rfl))

/-- C6: on every code path of the session-identity initializer — the
native strong-random builtin (modelled from its platform contract),
the getRandomValues fallback, and the Math.random fallback — and for
every possible value of the 16 underlying random bytes, the output
matches the canonical UUID v4 / variant-10 pattern
xxxxxxxx-xxxx-4xxx-yxxx-xxxxxxxxxxxx with y in 8, 9, a, b. -/
theorem c6_uuid_format (path : RandomPath) (bytes : Nat → Nat)
    (hb : ∀ i < 16, bytes i < 256) :
    UuidV4Pattern (sessionIdGen path bytes) := by
  cases path <;> exact uuidFromBytes_pattern bytes hb

/-- C6 witness: the all-zero byte vector produces a pattern-conforming
identifier on the Math.random fallback path. -/
theorem c6_uuid_format_witness :
    UuidV4Pattern (sessionIdGen RandomPath.mathRandom (fun _ => 0)) :=
  c6_uuid_format RandomPath.mathRandom (fun _ => 0)
    (by intro i _; show (0 : Nat) < 256; decide)

end TaahAI
